import Mathlib

/-!
Shallow embedding of the `rinha-de-compiladores` tree-walking interpreter
(`src/types.rs`, `src/interpreter.rs`) and proofs about its evaluator.

Numbers: the source uses `f64`. We model it with `Fd`, an idealized IEEE
double: an exact rational for the finite case (no rounding — every literal
and every intermediate value exercised below is exactly representable),
plus `pinf`/`ninf`/`nan` with the IEEE rules for the special cases the
interpreter can reach (division and remainder by zero, floor of an
infinity). Signed zero is not modelled: `a / 0` takes the sign of `a`.

Side effects: `println!` output is modelled as a list of emitted strings
(each entry includes its trailing newline), accumulated in evaluation
order and kept on a fault (the text printed before a panic has already
reached stdout).

Faults: the source panics with a message; per the fault taxonomy we embed
them as an `Err` sum carrying exactly the payload the panic message
carries (`type_mismatch(s)` ↦ `typeMismatch s`, the undefined-variable
panic ↦ `undefinedVariable name`, the arity panic ↦
`arityMismatch expected got`). Evaluation is fuel-indexed because the
object language can diverge (self-application); `outOfFuel` is the
artifact of that indexing, not a fault of the source.
-/

namespace Rinha

/-- `f64::EPSILON` = 2^(-52), the tolerance used by `is_equal`. -/
def EPSILON : ℚ := 1 / 2 ^ 52

/-- Idealized IEEE double: exact finite rationals plus the special values. -/
inductive Fd where
  | fin (q : ℚ)
  | pinf
  | ninf
  | nan
deriving DecidableEq

/-- IEEE negation. -/
def Fd.neg : Fd → Fd
  | .fin q => .fin (-q)
  | .pinf => .ninf
  | .ninf => .pinf
  | .nan => .nan

/-- IEEE addition (finite case exact). -/
def Fd.add : Fd → Fd → Fd
  | .nan, _ => .nan
  | _, .nan => .nan
  | .fin a, .fin b => .fin (a + b)
  | .fin _, .pinf => .pinf
  | .fin _, .ninf => .ninf
  | .pinf, .fin _ => .pinf
  | .ninf, .fin _ => .ninf
  | .pinf, .pinf => .pinf
  | .ninf, .ninf => .ninf
  | .pinf, .ninf => .nan
  | .ninf, .pinf => .nan

/-- IEEE subtraction, `a - b = a + (-b)`. -/
def Fd.sub (a b : Fd) : Fd := a.add b.neg

/-- IEEE multiplication (finite case exact). -/
def Fd.mul : Fd → Fd → Fd
  | .nan, _ => .nan
  | _, .nan => .nan
  | .fin a, .fin b => .fin (a * b)
  | .pinf, .pinf => .pinf
  | .pinf, .ninf => .ninf
  | .ninf, .pinf => .ninf
  | .ninf, .ninf => .pinf
  | .pinf, .fin b => if 0 < b then .pinf else if b < 0 then .ninf else .nan
  | .ninf, .fin b => if 0 < b then .ninf else if b < 0 then .pinf else .nan
  | .fin a, .pinf => if 0 < a then .pinf else if a < 0 then .ninf else .nan
  | .fin a, .ninf => if 0 < a then .ninf else if a < 0 then .pinf else .nan

/-- Truncation toward zero of a rational. -/
def ratTrunc (q : ℚ) : ℤ := if 0 ≤ q then ⌊q⌋ else ⌈q⌉

/-- IEEE division: finite nonzero case exact; `a / 0` is `±∞` by the sign
of `a` (`0 / 0` is NaN; signed zero idealized away). -/
def Fd.div : Fd → Fd → Fd
  | .nan, _ => .nan
  | _, .nan => .nan
  | .fin a, .fin b =>
      if b = 0 then (if 0 < a then .pinf else if a < 0 then .ninf else .nan)
      else .fin (a / b)
  | .fin _, .pinf => .fin 0
  | .fin _, .ninf => .fin 0
  | .pinf, .fin b => if 0 ≤ b then .pinf else .ninf
  | .ninf, .fin b => if 0 ≤ b then .ninf else .pinf
  | .pinf, .pinf => .nan
  | .pinf, .ninf => .nan
  | .ninf, .pinf => .nan
  | .ninf, .ninf => .nan

/-- Rust's `%` on `f64` (fmod): `a - b * trunc(a / b)`, NaN when the
divisor is zero or the dividend infinite. -/
def Fd.fmod : Fd → Fd → Fd
  | .nan, _ => .nan
  | _, .nan => .nan
  | .fin a, .fin b => if b = 0 then .nan else .fin (a - b * (ratTrunc (a / b) : ℚ))
  | .fin a, .pinf => .fin a
  | .fin a, .ninf => .fin a
  | .pinf, _ => .nan
  | .ninf, _ => .nan

/-- `f64::floor`. -/
def Fd.floorF : Fd → Fd
  | .fin q => .fin (⌊q⌋ : ℚ)
  | .pinf => .pinf
  | .ninf => .ninf
  | .nan => .nan

/-- `f64::abs`. -/
def Fd.absF : Fd → Fd
  | .fin q => .fin |q|
  | .pinf => .pinf
  | .ninf => .pinf
  | .nan => .nan

/-- IEEE `<` (false whenever a NaN is involved). -/
def Fd.ltb : Fd → Fd → Bool
  | .nan, _ => false
  | _, .nan => false
  | .fin a, .fin b => decide (a < b)
  | .fin _, .pinf => true
  | .fin _, .ninf => false
  | .pinf, _ => false
  | .ninf, .pinf => true
  | .ninf, .fin _ => true
  | .ninf, .ninf => false

/-- IEEE `<=` (false whenever a NaN is involved). -/
def Fd.leb : Fd → Fd → Bool
  | .nan, _ => false
  | _, .nan => false
  | .fin a, .fin b => decide (a ≤ b)
  | .fin _, .pinf => true
  | .fin _, .ninf => false
  | .pinf, .pinf => true
  | .pinf, .fin _ => false
  | .pinf, .ninf => false
  | .ninf, _ => true

/-- IEEE `>`. -/
def Fd.gtb (a b : Fd) : Bool := Fd.ltb b a

/-- IEEE `>=`. -/
def Fd.geb (a b : Fd) : Bool := Fd.leb b a

/-- `f64`'s `to_string`. Integral values render as plain decimal integers
(the only case the programs below exercise — every number the interpreter
produces from integer literals is integral, since `div` and `rem` floor);
non-integral finite values are idealized as `num/den`. -/
def Fd.toStr : Fd → String
  | .fin q => if q.den = 1 then toString q.num else toString q.num ++ "/" ++ toString q.den
  | .pinf => "inf"
  | .ninf => "-inf"
  | .nan => "NaN"

/-- `BinaryOp` from `types.rs`. -/
inductive BinaryOp where
  | add | sub | mul | div | rem | eq | neq | lt | gt | lte | gte | and | or
deriving DecidableEq

/-- `Term` from `types.rs` (the `kind` string and `location` metadata are
never inspected by the evaluator and are dropped). -/
inductive Term where
  | int (value : Fd)
  | str (value : String)
  | bool (value : Bool)
  | ifTerm (condition thenT otherwise : Term)
  | letTerm (name : String) (value next : Term)
  | binary (lhs : Term) (op : BinaryOp) (rhs : Term)
  | call (callee : Term) (arguments : List Term)
  | function (parameters : List String) (value : Term)
  | first (value : Term)
  | print (value : Term)
  | second (value : Term)
  | tuple (first second : Term)
  | var (text : String)

/-- `Value` from `interpreter.rs`; a closure holds its parameter names,
body and captured environment (the environment as an insertion list —
`HashMap::insert` replaces, modelled by cons plus first-match lookup). -/
inductive Value where
  | boolean (b : Bool)
  | str (s : String)
  | number (n : Fd)
  | closure (parameters : List String) (body : Term) (env : List (String × Value))
  | tuple (first second : Value)

/-- `Env` from `interpreter.rs`: the `objects` map, as an insertion list. -/
abbrev Env := List (String × Value)

/-- `HashMap::get`: first-match lookup. -/
def lookup : Env → String → Option Value
  | [], _ => none
  | (k, v) :: rest, name => if k = name then some v else lookup rest name

/-- `HashMap::insert`: the new binding shadows any earlier one. -/
def insertEnv (name : String) (v : Value) (env : Env) : Env := (name, v) :: env

/-- Fault taxonomy; payloads are exactly what the source's panic messages
carry. `outOfFuel` is the artifact of fuel-indexing, not a source fault. -/
inductive Err where
  | typeMismatch (expected : String)
  | undefinedVariable (name : String)
  | arityMismatch (expected got : Nat)
  | outOfFuel
deriving DecidableEq

/-- `assert_int` (interpreter.rs:46): number payload or `type_mismatch("int")`. -/
def assertInt : Value → Except Err Fd
  | .number n => .ok n
  | _ => .error (.typeMismatch "int")

/-- `assert_tuple` (interpreter.rs:54). -/
def assertTuple : Value → Except Err (Value × Value)
  | .tuple f s => .ok (f, s)
  | _ => .error (.typeMismatch "tuple")

/-- `assert_closure` (interpreter.rs:62). -/
def assertClosure : Value → Except Err (List String × Term × Env)
  | .closure ps body env => .ok (ps, body, env)
  | _ => .error (.typeMismatch "closure")

/-- `assert_bool` (interpreter.rs:70): note the source's message is
`type_mismatch("closure")` — the string `"closure"`, not `"boolean"`. -/
def assertBool : Value → Except Err Bool
  | .boolean b => .ok b
  | _ => .error (.typeMismatch "closure")

/-- `cast_to_string` (interpreter.rs:78): numbers and strings coerce,
everything else is `type_mismatch("string or int")`. -/
def castToString : Value → Except Err String
  | .number n => .ok n.toStr
  | .str s => .ok s
  | _ => .error (.typeMismatch "string or int")

/-- `is_equal` (interpreter.rs:86): numbers within `f64::EPSILON`, strings
and booleans structurally; any other pairing is a type mismatch. -/
def isEqual : Value → Value → Except Err Bool
  | .number l, .number r => .ok (((l.sub r).absF).ltb (.fin EPSILON))
  | .str l, .str r => .ok (decide (l = r))
  | .boolean l, .boolean r => .ok (decide (l = r))
  | _, _ => .error (.typeMismatch "number or string or boolean")

/-- `interpret_binary` (interpreter.rs:95). -/
def interpretBinary (left right : Value) (op : BinaryOp) : Except Err Value :=
  match op with
  | .add =>
    match left, right with
    | .number l, .number r => .ok (.number (l.add r))
    | _, _ => do
      let leftVal ← castToString left
      let rightVal ← castToString right
      .ok (.str (leftVal ++ rightVal))
  | .eq => do
    let b ← isEqual left right
    .ok (.boolean b)
  | .neq => do
    let b ← isEqual left right
    .ok (.boolean !b)
  | .sub => do
    let l ← assertInt left
    let r ← assertInt right
    .ok (.number (l.sub r))
  | .mul => do
    let l ← assertInt left
    let r ← assertInt right
    .ok (.number (l.mul r))
  | .div => do
    let l ← assertInt left
    let r ← assertInt right
    .ok (.number ((l.div r).floorF))
  | .rem => do
    let l ← assertInt left
    let r ← assertInt right
    .ok (.number ((l.fmod r).floorF))
  | .lt => do
    let l ← assertInt left
    let r ← assertInt right
    .ok (.boolean (l.ltb r))
  | .gt => do
    let l ← assertInt left
    let r ← assertInt right
    .ok (.boolean (l.gtb r))
  | .lte => do
    let l ← assertInt left
    let r ← assertInt right
    .ok (.boolean (l.leb r))
  | .gte => do
    let l ← assertInt left
    let r ← assertInt right
    .ok (.boolean (l.geb r))
  | .and => do
    let l ← assertBool left
    let r ← assertBool right
    .ok (.boolean (l && r))
  | .or => do
    let l ← assertBool left
    let r ← assertBool right
    .ok (.boolean (l || r))

/-- `show_value` (interpreter.rs:167). -/
def showValue : Value → String
  | .number n => n.toStr
  | .boolean b => if b then "true" else "false"
  | .str s => s
  | .closure _ _ _ => "<#closure>"
  | .tuple f s => "(" ++ showValue f ++ ", " ++ showValue s ++ ")"

/-- The argument-binding loop of `Term::Call` (interpreter.rs:253): walk
the zip of parameters and argument terms, evaluate each argument with the
supplied evaluator (the caller passes evaluation under the caller's
environment), and insert the binding into the accumulating function
environment; a fault aborts the loop keeping the output emitted so far. -/
def evalArgs (evalArg : Term → Except Err Value × List String) :
    List (String × Term) → Env → Except Err Env × List String
  | [], fenv => (.ok fenv, [])
  | (param, arg) :: rest, fenv =>
    match evalArg arg with
    | (.error e, out) => (.error e, out)
    | (.ok v, out) =>
      match evalArgs evalArg rest (insertEnv param v fenv) with
      | (res, out2) => (res, out ++ out2)

/-- `interpret` (interpreter.rs:177), fuel-indexed: each recursive
`interpret` call of the source consumes one unit of fuel. Returns the
result together with the list of lines printed (kept on a fault). -/
def interp : Nat → Term → Env → Except Err Value × List String
  | 0, _, _ => (.error .outOfFuel, [])
  | fuel + 1, t, env =>
    match t with
    | .str v => (.ok (.str v), [])
    | .bool v => (.ok (.boolean v), [])
    | .int v => (.ok (.number v), [])
    | .ifTerm condition thenT otherwise =>
      match interp fuel condition env with
      | (.error e, out) => (.error e, out)
      | (.ok cv, out) =>
        match assertBool cv with
        | .error e => (.error e, out)
        | .ok b =>
          if b then
            match interp fuel thenT env with
            | (res, out2) => (res, out ++ out2)
          else
            match interp fuel otherwise env with
            | (res, out2) => (res, out ++ out2)
    | .tuple first second =>
      match interp fuel first env with
      | (.error e, out) => (.error e, out)
      | (.ok fv, out) =>
        match interp fuel second env with
        | (.error e, out2) => (.error e, out ++ out2)
        | (.ok sv, out2) => (.ok (.tuple fv sv), out ++ out2)
    | .first value =>
      match interp fuel value env with
      | (.error e, out) => (.error e, out)
      | (.ok v, out) =>
        match assertTuple v with
        | .error e => (.error e, out)
        | .ok (f, _) => (.ok f, out)
    | .second value =>
      match interp fuel value env with
      | (.error e, out) => (.error e, out)
      | (.ok v, out) =>
        match assertTuple v with
        | .error e => (.error e, out)
        | .ok (_, s) => (.ok s, out)
    | .binary lhs op rhs =>
      match interp fuel lhs env with
      | (.error e, out) => (.error e, out)
      | (.ok l, out) =>
        match interp fuel rhs env with
        | (.error e, out2) => (.error e, out ++ out2)
        | (.ok r, out2) =>
          match interpretBinary l r op with
          | .error e => (.error e, out ++ out2)
          | .ok v => (.ok v, out ++ out2)
    | .print value =>
      match interp fuel value env with
      | (.error e, out) => (.error e, out)
      | (.ok v, out) => (.ok v, out ++ [showValue v ++ "\n"])
    | .var text =>
      match lookup env text with
      | some v => (.ok v, [])
      | none => (.error (.undefinedVariable text), [])
    | .letTerm name value next =>
      match interp fuel value env with
      | (.error e, out) => (.error e, out)
      | (.ok v, out) =>
        match interp fuel next (insertEnv name v env) with
        | (res, out2) => (res, out ++ out2)
    | .call callee arguments =>
      match interp fuel callee env with
      | (.error e, out) => (.error e, out)
      | (.ok func, out) =>
        match assertClosure func with
        | .error e => (.error e, out)
        | .ok (ps, body, cenv) =>
          if ps.length ≠ arguments.length then
            (.error (.arityMismatch ps.length arguments.length), out)
          else
            match evalArgs (fun a => interp fuel a env) (ps.zip arguments) cenv with
            | (.error e, out2) => (.error e, out ++ out2)
            | (.ok fenv, out2) =>
              match interp fuel body fenv with
              | (res, out3) => (res, out ++ out2 ++ out3)
    | .function parameters value => (.ok (.closure parameters value env), [])

/-- `interpret_file` (interpreter.rs:35): evaluate the root under the
empty environment. -/
def interpretFile (fuel : Nat) (t : Term) : Except Err Value × List String :=
  interp fuel t []

/-- Claim C2: the value term of a let-binding is evaluated under the
environment that does not yet contain the new binding (first conjunct:
the one-step evaluation equation for `Term::Let`, whose value term is run
under `env`, not `insertEnv name v env`), so a let-bound name is not
visible in its own value term; in particular `let x = x in x` under the
empty environment faults with `UndefinedVariable("x")` at every
sufficient fuel (second conjunct — no loop, no self-referential value). -/
theorem c2_let_value_under_current_env :
    (∀ (fuel : Nat) (name : String) (value next : Term) (env : Env),
      interp (fuel + 1) (.letTerm name value next) env =
        match interp fuel value env with
        | (.error e, out) => (.error e, out)
        | (.ok v, out) =>
          match interp fuel next (insertEnv name v env) with
          | (res, out2) => (res, out ++ out2))
    ∧ (∀ fuel : Nat, interp (fuel + 2) (.letTerm "x" (.var "x") (.var "x")) [] =
        (.error (.undefinedVariable "x"), [])) :=
  ⟨fun _ _ _ _ _ => rfl, fun _ => rfl⟩

/-- Claim C3, divergence evidence: evaluating a conditional whose
condition is not a boolean faults with `TypeMismatch("closure")` — not
`TypeMismatch("boolean")` as the spec states — because `assert_bool`
(interpreter.rs:70-76) panics with the message `"not a closure"`. The
remaining behavior of `Term::If` matches the claim (last conjunct: the
one-step equation — condition under the current environment, exactly one
branch evaluated, under the same unextended environment). -/
theorem c3_condition_fault_is_closure_string :
    interp 2 (.ifTerm (.int (.fin 1)) (.int (.fin 2)) (.int (.fin 3))) [] =
      (.error (.typeMismatch "closure"), [])
    ∧ interp 2 (.ifTerm (.int (.fin 1)) (.int (.fin 2)) (.int (.fin 3))) [] ≠
      (.error (.typeMismatch "boolean"), [])
    ∧ (∀ n, assertBool (.number n) = .error (.typeMismatch "closure"))
    ∧ (∀ (fuel : Nat) (c t o : Term) (env : Env),
      interp (fuel + 1) (.ifTerm c t o) env =
        match interp fuel c env with
        | (.error e, out) => (.error e, out)
        | (.ok cv, out) =>
          match assertBool cv with
          | .error e => (.error e, out)
          | .ok b =>
            if b then
              match interp fuel t env with
              | (res, out2) => (res, out ++ out2)
            else
              match interp fuel o env with
              | (res, out2) => (res, out ++ out2)) := by
  refine ⟨rfl, ?_, fun _ => rfl, fun _ _ _ _ _ => rfl⟩
  have h : interp 2 (.ifTerm (.int (.fin 1)) (.int (.fin 2)) (.int (.fin 3))) [] =
      (.error (.typeMismatch "closure"), []) := rfl
  rw [h]
  simp

/-- Claim C5: `divide` requires two numbers (first conjunct: any other
operand shape faults with the type mismatch), the result is the floor of
the quotient computed over the double representation — `7 / 2 = 3` and
`-7 / 2 = -4` (floor, not truncation) — and division by zero does not
fault but yields the floor of the IEEE quotient (`7 / 0 = +inf`,
`0 / 0 = NaN`). -/
theorem c5_div_is_floor_division :
    (∀ v w : Value, interpretBinary v w .div =
      match v, w with
      | .number l, .number r => .ok (.number ((l.div r).floorF))
      | _, _ => .error (.typeMismatch "int"))
    ∧ interp 2 (.binary (.int (.fin 7)) .div (.int (.fin 2))) [] =
        (.ok (.number (.fin 3)), [])
    ∧ interp 2 (.binary (.int (.fin (-7))) .div (.int (.fin 2))) [] =
        (.ok (.number (.fin (-4))), [])
    ∧ (∀ a : ℚ, interpretBinary (.number (.fin a)) (.number (.fin 0)) .div =
        .ok (.number ((Fd.div (.fin a) (.fin 0)).floorF)))
    ∧ interp 2 (.binary (.int (.fin 7)) .div (.int (.fin 0))) [] =
        (.ok (.number .pinf), [])
    ∧ interpretBinary (.number (.fin 0)) (.number (.fin 0)) .div =
        .ok (.number .nan) := by
  refine ⟨fun v w => ?_, ?_, ?_, fun a => rfl, ?_, ?_⟩
  · cases v <;> cases w <;> rfl
  · simp only [interp, interpretBinary, assertInt, Fd.div, Fd.floorF, Bind.bind, Except.bind]
    norm_num
  · simp only [interp, interpretBinary, assertInt, Fd.div, Fd.floorF, Bind.bind, Except.bind]
    norm_num
  · simp only [interp, interpretBinary, assertInt, Fd.div, Fd.floorF, Bind.bind, Except.bind]
    norm_num
  · simp only [interpretBinary, assertInt, Fd.div, Fd.floorF, Bind.bind, Except.bind]
    norm_num

/-- Claim C6, counterexample: `true + 1` faults with
`TypeMismatch("string or int")` — `cast_to_string` (interpreter.rs:78-84)
panics with `"not a string or int"` — not with
`TypeMismatch("string or number")` as the claim states. -/
theorem c6_counterexample_fault_string :
    interp 2 (.binary (.bool true) .add (.int (.fin 1))) [] =
      (.error (.typeMismatch "string or int"), [])
    ∧ interp 2 (.binary (.bool true) .add (.int (.fin 1))) [] ≠
      (.error (.typeMismatch "string or number"), []) := by
  refine ⟨rfl, ?_⟩
  have h : interp 2 (.binary (.bool true) .add (.int (.fin 1))) [] =
      (.error (.typeMismatch "string or int"), []) := rfl
  rw [h]
  simp

/-- Claim C6 as amended: `add` on two numbers is numeric addition;
otherwise both operands are coerced to text (numbers via their decimal
form, strings verbatim) and concatenated — `"a" + 1 = "a1"`,
`1 + "a" = "1a"` — and a boolean, tuple or closure operand faults with
`TypeMismatch("string or int")` (the source's payload; the claim said
`"string or number"`). -/
theorem c6_add_coercion :
    (∀ v w : Value, interpretBinary v w .add =
      match v, w with
      | .number l, .number r => .ok (.number (l.add r))
      | _, _ =>
        match castToString v with
        | .error e => .error e
        | .ok a =>
          match castToString w with
          | .error e => .error e
          | .ok b => .ok (.str (a ++ b)))
    ∧ (∀ b, castToString (.boolean b) = .error (.typeMismatch "string or int"))
    ∧ (∀ a b, castToString (.tuple a b) = .error (.typeMismatch "string or int"))
    ∧ (∀ ps body cenv, castToString (.closure ps body cenv) =
        .error (.typeMismatch "string or int"))
    ∧ interp 2 (.binary (.str "a") .add (.int (.fin 1))) [] = (.ok (.str "a1"), [])
    ∧ interp 2 (.binary (.int (.fin 1)) .add (.str "a")) [] = (.ok (.str "1a"), [])
    ∧ interp 2 (.binary (.bool true) .add (.int (.fin 1))) [] =
        (.error (.typeMismatch "string or int"), []) := by
  refine ⟨fun v w => ?_, fun _ => rfl, fun _ _ => rfl, fun _ _ _ => rfl, rfl, rfl, rfl⟩
  cases v <;> cases w <;> rfl

/-- Claim C7: `equal` on two numbers compares with an absolute tolerance
of `f64::EPSILON` (first conjunct), so distinct values within the
tolerance compare equal (third conjunct — not exact bit equality);
`not-equal` is the pointwise negation of `equal` (second and fourth
conjuncts); comparing across the kinds number/string/boolean, or
comparing tuples or closures, faults with the type mismatch; `1 == "1"`
faults while `1 == 1` is `true`. -/
theorem c7_equality_tolerance_and_kinds :
    (∀ l r : ℚ, interpretBinary (.number (.fin l)) (.number (.fin r)) .eq =
      .ok (.boolean (decide (|l - r| < EPSILON))))
    ∧ (∀ l r : ℚ, interpretBinary (.number (.fin l)) (.number (.fin r)) .neq =
      .ok (.boolean (!decide (|l - r| < EPSILON))))
    ∧ (interpretBinary (.number (.fin 0)) (.number (.fin (EPSILON / 2))) .eq =
        .ok (.boolean true) ∧ (0 : ℚ) ≠ EPSILON / 2)
    ∧ (∀ v w : Value, interpretBinary v w .neq =
      match isEqual v w with
      | .ok b => .ok (.boolean !b)
      | .error e => .error e)
    ∧ (∀ l s, isEqual (.number l) (.str s) =
        .error (.typeMismatch "number or string or boolean"))
    ∧ (∀ l b, isEqual (.number l) (.boolean b) =
        .error (.typeMismatch "number or string or boolean"))
    ∧ (∀ s b, isEqual (.str s) (.boolean b) =
        .error (.typeMismatch "number or string or boolean"))
    ∧ (∀ a b w, isEqual (.tuple a b) w =
        .error (.typeMismatch "number or string or boolean"))
    ∧ (∀ v a b, isEqual v (.tuple a b) =
        .error (.typeMismatch "number or string or boolean"))
    ∧ (∀ ps body cenv w, isEqual (.closure ps body cenv) w =
        .error (.typeMismatch "number or string or boolean"))
    ∧ (∀ v ps body cenv, isEqual v (.closure ps body cenv) =
        .error (.typeMismatch "number or string or boolean"))
    ∧ interp 2 (.binary (.int (.fin 1)) .eq (.str "1")) [] =
        (.error (.typeMismatch "number or string or boolean"), [])
    ∧ interp 2 (.binary (.int (.fin 1)) .eq (.int (.fin 1))) [] =
        (.ok (.boolean true), []) := by
  have heq : ∀ l r : ℚ, interpretBinary (.number (.fin l)) (.number (.fin r)) .eq =
      .ok (.boolean (decide (|l - r| < EPSILON))) := by
    intro l r
    simp only [interpretBinary, isEqual, Fd.sub, Fd.neg, Fd.add, Fd.absF, Fd.ltb,
      Bind.bind, Except.bind, ← sub_eq_add_neg]
  refine ⟨heq, fun l r => ?_, ⟨?_, ?_⟩, fun v w => ?_, fun _ _ => rfl, fun _ _ => rfl,
    fun _ _ => rfl, fun _ _ _ => rfl, fun v _ _ => ?_, fun _ _ _ _ => rfl,
    fun v _ _ _ => ?_, rfl, ?_⟩
  · simp only [interpretBinary, isEqual, Fd.sub, Fd.neg, Fd.add, Fd.absF, Fd.ltb,
      Bind.bind, Except.bind, ← sub_eq_add_neg]
  · rw [heq]
    simp only [Except.ok.injEq, Value.boolean.injEq, decide_eq_true_eq]
    rw [zero_sub, abs_neg, abs_of_nonneg (by norm_num [EPSILON])]
    norm_num [EPSILON]
  · norm_num [EPSILON]
  · cases hv : isEqual v w <;>
      simp [interpretBinary, Bind.bind, Except.bind, hv]
  · cases v <;> rfl
  · cases v <;> rfl
  · have h := heq 1 1
    have h0 : |(1 : ℚ) - 1| < EPSILON := by norm_num [EPSILON]
    simp only [interp]
    rw [h]
    simp [h0]
    norm_num [EPSILON]

/-- Claim C8: `print` is transparent — its one-step equation returns the
child's value unchanged and appends the rendered text plus a line
terminator to the output — and `show_value` renders booleans and numbers
via their textual form, strings verbatim, tuples as `(first, second)`
recursively, and closures as the opaque `<#closure>` token. -/
theorem c8_print_transparent :
    (∀ (fuel : Nat) (t : Term) (env : Env),
      interp (fuel + 1) (.print t) env =
        match interp fuel t env with
        | (.error e, out) => (.error e, out)
        | (.ok v, out) => (.ok v, out ++ [showValue v ++ "\n"]))
    ∧ (∀ s, showValue (.str s) = s)
    ∧ showValue (.boolean true) = "true"
    ∧ showValue (.boolean false) = "false"
    ∧ (∀ n, showValue (.number n) = n.toStr)
    ∧ (∀ a b, showValue (.tuple a b) =
        "(" ++ showValue a ++ ", " ++ showValue b ++ ")")
    ∧ (∀ ps body cenv, showValue (.closure ps body cenv) = "<#closure>")
    ∧ interp 2 (.print (.int (.fin 3))) [] = (.ok (.number (.fin 3)), ["3\n"])
    ∧ interp 3 (.print (.tuple (.int (.fin 1)) (.str "a"))) [] =
        (.ok (.tuple (.number (.fin 1)) (.str "a")), ["(1, a)\n"]) :=
  ⟨fun _ _ _ => rfl, fun _ => rfl, rfl, rfl, fun _ => rfl, fun _ _ => rfl,
    fun _ _ _ => rfl, rfl, rfl⟩

/-- Claim C4: a binary term always evaluates the left operand and then
the right operand under the current environment before the operator is
applied (first conjunct — in particular `and`/`or` are not
short-circuited); `and`/`or` require boolean operands (else a type
mismatch) and compute the standard conjunction/disjunction; a `print` in
the right operand still emits its output even when the left operand alone
determines the result (last two conjuncts). -/
theorem c4_and_or_evaluate_both_sides :
    (∀ (fuel : Nat) (lhs : Term) (op : BinaryOp) (rhs : Term) (env : Env),
      interp (fuel + 1) (.binary lhs op rhs) env =
        match interp fuel lhs env with
        | (.error e, out) => (.error e, out)
        | (.ok l, out) =>
          match interp fuel rhs env with
          | (.error e, out2) => (.error e, out ++ out2)
          | (.ok r, out2) =>
            match interpretBinary l r op with
            | .error e => (.error e, out ++ out2)
            | .ok v => (.ok v, out ++ out2))
    ∧ (∀ v w : Value, interpretBinary v w .and =
        match v, w with
        | .boolean a, .boolean b => .ok (.boolean (a && b))
        | _, _ => .error (.typeMismatch "closure"))
    ∧ (∀ v w : Value, interpretBinary v w .or =
        match v, w with
        | .boolean a, .boolean b => .ok (.boolean (a || b))
        | _, _ => .error (.typeMismatch "closure"))
    ∧ interp 3 (.binary (.bool false) .and (.print (.bool true))) [] =
        (.ok (.boolean false), ["true\n"])
    ∧ interp 3 (.binary (.bool true) .or (.print (.bool false))) [] =
        (.ok (.boolean true), ["false\n"]) :=
  ⟨fun _ _ _ _ _ => rfl, fun v w => by cases v <;> cases w <;> rfl,
    fun v w => by cases v <;> cases w <;> rfl, rfl, rfl⟩

/-- Claim C1: a function literal evaluates to a closure capturing the
current environment, parameters and unevaluated body, with no output
(first conjunct); calling a closure evaluates each argument under the
caller's environment and the body under the closure's captured
environment extended with the parameters bound in order (second conjunct:
the call rule, phrased with `evalArgs` over the caller's environment and
the captured `cenv`). Concretely: a variable rebound after the function
literal is not seen by the body (`let x = 1 in let f = fn() => x in
let x = 2 in f()` is `1`), duplicate parameters bind in order (`fn(x, x)`
applied to `1, 2` reads `2`), and arguments are resolved in the caller's
environment (`let f = fn(y) => y in let x = 7 in f(x)` is `7` although
the captured environment has no `x`). -/
theorem c1_closure_capture_and_call :
    (∀ (fuel : Nat) (ps : List String) (body : Term) (env : Env),
      interp (fuel + 1) (.function ps body) env = (.ok (.closure ps body env), []))
    ∧ (∀ (fuel : Nat) (callee : Term) (args : List Term) (env : Env)
        (ps : List String) (body : Term) (cenv : Env) (out : List String),
        interp fuel callee env = (.ok (.closure ps body cenv), out) →
        ps.length = args.length →
        interp (fuel + 1) (.call callee args) env =
          match evalArgs (fun a => interp fuel a env) (ps.zip args) cenv with
          | (.error e, out2) => (.error e, out ++ out2)
          | (.ok fenv, out2) =>
            match interp fuel body fenv with
            | (res, out3) => (res, out ++ out2 ++ out3))
    ∧ interp 6 (.letTerm "x" (.int (.fin 1)) (.letTerm "f" (.function [] (.var "x"))
        (.letTerm "x" (.int (.fin 2)) (.call (.var "f") [])))) [] =
        (.ok (.number (.fin 1)), [])
    ∧ interp 3 (.call (.function ["x", "x"] (.var "x")) [.int (.fin 1), .int (.fin 2)]) [] =
        (.ok (.number (.fin 2)), [])
    ∧ interp 6 (.letTerm "f" (.function ["y"] (.var "y")) (.letTerm "x" (.int (.fin 7))
        (.call (.var "f") [.var "x"]))) [] =
        (.ok (.number (.fin 7)), []) := by
  refine ⟨fun _ _ _ _ => rfl, ?_, rfl, rfl, rfl⟩
  intro fuel callee args env ps body cenv out hc hlen
  have step : interp (fuel + 1) (.call callee args) env =
      match interp fuel callee env with
      | (.error e, out) => (.error e, out)
      | (.ok func, out) =>
        match assertClosure func with
        | .error e => (.error e, out)
        | .ok (ps, body, cenv) =>
          if ps.length ≠ args.length then
            (.error (.arityMismatch ps.length args.length), out)
          else
            match evalArgs (fun a => interp fuel a env) (ps.zip args) cenv with
            | (.error e, out2) => (.error e, out ++ out2)
            | (.ok fenv, out2) =>
              match interp fuel body fenv with
              | (res, out3) => (res, out ++ out2 ++ out3) := rfl
  rw [step, hc]
  simp [assertClosure, hlen]

/-- Claim C1 witness: the call rule applied at the identity function and
the argument `3`. -/
theorem c1_closure_capture_and_call_witness :
    interp 2 (.call (.function ["y"] (.var "y")) [.int (.fin 3)]) [] =
      (.ok (.number (.fin 3)), []) :=
  (c1_closure_capture_and_call.2.1 1 (.function ["y"] (.var "y")) [.int (.fin 3)] []
    ["y"] (.var "y") [] [] rfl rfl).trans rfl

/-- Claim C9: calling a closure with an argument count different from its
parameter count faults with `ArityMismatch(expected, got)` (first
conjunct); a callee whose value is not a closure faults with
`TypeMismatch("closure")` (second conjunct); concretely, a one-parameter
closure called with two arguments faults with `ArityMismatch(1, 2)` and a
number callee faults with `TypeMismatch("closure")`. -/
theorem c9_call_arity_and_callee_type :
    (∀ (fuel : Nat) (callee : Term) (args : List Term) (env : Env)
        (ps : List String) (body : Term) (cenv : Env) (out : List String),
        interp fuel callee env = (.ok (.closure ps body cenv), out) →
        ps.length ≠ args.length →
        interp (fuel + 1) (.call callee args) env =
          (.error (.arityMismatch ps.length args.length), out))
    ∧ (∀ (fuel : Nat) (callee : Term) (args : List Term) (env : Env)
        (v : Value) (out : List String),
        interp fuel callee env = (.ok v, out) →
        (∀ ps body cenv, v ≠ .closure ps body cenv) →
        interp (fuel + 1) (.call callee args) env =
          (.error (.typeMismatch "closure"), out))
    ∧ interp 3 (.call (.function ["x"] (.var "x")) [.int (.fin 1), .int (.fin 2)]) [] =
        (.error (.arityMismatch 1 2), [])
    ∧ interp 2 (.call (.int (.fin 1)) []) [] =
        (.error (.typeMismatch "closure"), []) := by
  have step : ∀ (fuel : Nat) (callee : Term) (args : List Term) (env : Env),
      interp (fuel + 1) (.call callee args) env =
      match interp fuel callee env with
      | (.error e, out) => (.error e, out)
      | (.ok func, out) =>
        match assertClosure func with
        | .error e => (.error e, out)
        | .ok (ps, body, cenv) =>
          if ps.length ≠ args.length then
            (.error (.arityMismatch ps.length args.length), out)
          else
            match evalArgs (fun a => interp fuel a env) (ps.zip args) cenv with
            | (.error e, out2) => (.error e, out ++ out2)
            | (.ok fenv, out2) =>
              match interp fuel body fenv with
              | (res, out3) => (res, out ++ out2 ++ out3) := fun _ _ _ _ => rfl
  refine ⟨?_, ?_, rfl, rfl⟩
  · intro fuel callee args env ps body cenv out hc hlen
    rw [step, hc]
    simp [assertClosure, hlen]
  · intro fuel callee args env v out hc hv
    rw [step, hc]
    cases v
    case closure ps body cenv => exact absurd rfl (hv ps body cenv)
    all_goals rfl

/-- Claim C9 witness: the arity rule at a one-parameter closure with two
arguments and the non-closure rule at a string callee. -/
theorem c9_call_arity_and_callee_type_witness :
    interp 3 (.call (.function ["x"] (.var "x"))
        [.int (.fin 10), .int (.fin 20)]) [] = (.error (.arityMismatch 1 2), [])
    ∧ interp 2 (.call (.str "s") []) [] = (.error (.typeMismatch "closure"), []) :=
  ⟨c9_call_arity_and_callee_type.1 2 (.function ["x"] (.var "x"))
      [.int (.fin 10), .int (.fin 20)] [] ["x"] (.var "x") [] [] rfl (by decide),
    c9_call_arity_and_callee_type.2.1 1 (.str "s") [] [] (.str "s") [] rfl
      (fun _ _ _ h => Value.noConfusion h)⟩

/-- Claim C10: on an arity mismatch the call faults after evaluating the
callee but before evaluating any argument — the result carries exactly
the callee's output `out`, so no argument side effect is observable
(first conjunct); concretely, a mismatched call whose arguments both
contain `print` faults with `ArityMismatch(1, 2)` and empty output. -/
theorem c10_arity_fault_before_arguments :
    (∀ (fuel : Nat) (callee : Term) (args : List Term) (env : Env)
        (ps : List String) (body : Term) (cenv : Env) (out : List String),
        interp fuel callee env = (.ok (.closure ps body cenv), out) →
        ps.length ≠ args.length →
        interp (fuel + 1) (.call callee args) env =
          (.error (.arityMismatch ps.length args.length), out))
    ∧ interp 3 (.call (.function ["x"] (.var "x"))
        [.print (.int (.fin 1)), .print (.int (.fin 2))]) [] =
        (.error (.arityMismatch 1 2), []) := by
  refine ⟨?_, rfl⟩
  intro fuel callee args env ps body cenv out hc hlen
  have step : interp (fuel + 1) (.call callee args) env =
      match interp fuel callee env with
      | (.error e, out) => (.error e, out)
      | (.ok func, out) =>
        match assertClosure func with
        | .error e => (.error e, out)
        | .ok (ps, body, cenv) =>
          if ps.length ≠ args.length then
            (.error (.arityMismatch ps.length args.length), out)
          else
            match evalArgs (fun a => interp fuel a env) (ps.zip args) cenv with
            | (.error e, out2) => (.error e, out ++ out2)
            | (.ok fenv, out2) =>
              match interp fuel body fenv with
              | (res, out3) => (res, out ++ out2 ++ out3) := rfl
  rw [step, hc]
  simp [assertClosure, hlen]

/-- Claim C10 witness: the arity-before-arguments rule applied at a
one-parameter closure with two print-bearing arguments. -/
theorem c10_arity_fault_before_arguments_witness :
    interp 3 (.call (.function ["z"] (.var "z"))
        [.print (.str "a"), .print (.str "b")]) [] =
      (.error (.arityMismatch 1 2), []) :=
  c10_arity_fault_before_arguments.1 2 (.function ["z"] (.var "z"))
    [.print (.str "a"), .print (.str "b")] [] ["z"] (.var "z") [] [] rfl (by decide)

end Rinha
